import Mathlib

/-!
Shallow embedding of the Banity background job worker
(`worker-v2.ts` / `src/index.ts`, plus `src/lib/settings.ts`'s `enqueueJob`).

Timestamps are integers (milliseconds since epoch), matching `Date.now()` /
ISO-string comparisons in the source.  Database rows become Lean structures;
each REST call (`update ... .eq`, `delete ... .lt`, the selection query) is
modelled as a pure function on a list of rows.  External effects (screenshot
service, storage upload, database insert results) are passed in as explicit
parameters.
-/

namespace Banity

/-- Milliseconds since epoch, as compared by `Date.now()` and ISO-8601 strings. -/
abbrev Time := Int

/-- Payload of a capture/monitor job, the only payload shape the handlers read
(`payload.submission_id`, `payload.url`, `payload.platform`,
`payload.capture_type` in `captureSubmission`). -/
structure CapturePayload where
  submission_id : String
  url : String
  platform : String
  capture_type : String
deriving DecidableEq

/-- One row of the `job_queue` table (columns used by the worker). -/
structure Job where
  id : Nat
  job_type : String
  payload : CapturePayload
  status : String
  priority : Int
  scheduled_for : Time
  attempts : Nat
  max_attempts : Nat
  locked_by : Option String
  locked_at : Option Time
  error_message : Option String
  created_at : Time
  completed_at : Option Time
deriving DecidableEq

/-- PostgREST `PATCH table?id=eq.jid` with body `f`: every row whose `id`
matches is rewritten; rows that do not match are untouched.  The HTTP call
succeeds (no `error`) even when zero rows match. -/
def updateEq (tbl : List Job) (jid : Nat) (f : Job → Job) : List Job :=
  tbl.map fun j => if j.id == jid then f j else j

/-- Number of rows a request filtered by `id=eq.jid` matches. -/
def matchedCount (tbl : List Job) (jid : Nat) : Nat :=
  (tbl.filter fun j => j.id == jid).length

/-- Predicate of the eligible-jobs selection query:
`status=eq.pending&scheduled_for=lte.now&locked_by=is.null`. -/
def eligible (now : Time) (j : Job) : Bool :=
  j.status == "pending" && decide (j.scheduled_for ≤ now) && j.locked_by == none

/-- Ordering of the selection query: `order=priority.desc,scheduled_for.asc`. -/
def jobOrder (a b : Job) : Bool :=
  decide (b.priority < a.priority) ||
    (a.priority == b.priority && decide (a.scheduled_for ≤ b.scheduled_for))

/-- Batch bound of the selection query: `limit=10`. -/
def processBatchLimit : Nat := 10

/-- The eligible-jobs query of `processJobQueue`: filter, order by
`priority DESC, scheduled_for ASC`, `limit 10`. -/
def selectEligible (now : Time) (tbl : List Job) : List Job :=
  ((tbl.filter (eligible now)).mergeSort jobOrder).take processBatchLimit

/-- The lock update of `processJobQueue`: `update({locked_by, locked_at,
status: 'processing', attempts: job.attempts + 1}).eq('id', job.id)` — the
only filter on the PATCH is the job id, taken from the snapshot `snap` read
by the selection query. -/
def lockJob (w : String) (now : Time) (snap : Job) (tbl : List Job) : List Job :=
  updateEq tbl snap.id fun j =>
    { j with locked_by := some w, locked_at := some now, status := "processing",
             attempts := snap.attempts + 1 }

/-- Success update of `processJobQueue`: `{status: 'completed', completed_at,
locked_by: null}` filtered by `id=eq`. -/
def completeJob (jid : Nat) (now : Time) (tbl : List Job) : List Job :=
  updateEq tbl jid fun j =>
    { j with status := "completed", completed_at := some now, locked_by := none }

/-- Backoff of `worker-v2.ts`: `Math.pow(2, job.attempts) * 5 * 60000`. -/
def backoffMs (attempts : Nat) : Int := 2 ^ attempts * 5 * 60000

/-- Backoff of the `src/index.ts` variant: `Math.pow(2, job.attempts) * 60000`. -/
def backoffMsW (attempts : Nat) : Int := 2 ^ attempts * 60000

/-- Failure branch of `processJobQueue` (worker-v2 backoff base): if
`job.attempts + 1 >= job.max_attempts` mark `failed`, store the error and
clear the lock; otherwise back to `pending` with
`scheduled_for = Date.now() + backoffMs`, error stored, lock cleared.  `snap`
is the job row read by the selection query. -/
def failJob (snap : Job) (errMsg : String) (now : Time) (tbl : List Job) : List Job :=
  if snap.attempts + 1 ≥ snap.max_attempts then
    updateEq tbl snap.id fun j =>
      { j with status := "failed", error_message := some errMsg, locked_by := none }
  else
    updateEq tbl snap.id fun j =>
      { j with status := "pending", scheduled_for := now + backoffMs snap.attempts,
               error_message := some errMsg, locked_by := none }

/-- Milliseconds in a day. -/
def msPerDay : Int := 86400000

/-- `cleanupOldJobs` as wired in `worker-v2.ts`: its client's `delete().lt`
issues `DELETE job_queue?created_at=lt.cutoff` with no further filter, so a
row survives exactly when its `created_at` is not older than the 7-day
cutoff, whatever its `status`. -/
def cleanupOldJobsV2 (now : Time) (tbl : List Job) : List Job :=
  tbl.filter fun j => !(decide (j.created_at < now - 7 * msPerDay))

/-- `cleanupOldJobs` as wired in the `src/index.ts` variant: its client's
`delete().lt` appends `&status=in.(completed,failed)`, so only terminal rows
older than the cutoff are deleted. -/
def cleanupOldJobsW (now : Time) (tbl : List Job) : List Job :=
  tbl.filter fun j =>
    !(decide (j.created_at < now - 7 * msPerDay) &&
      (j.status == "completed" || j.status == "failed"))

/-- One row of the `submission_captures` table (columns the worker writes). -/
structure CaptureRow where
  submission_id : String
  capture_type : String
  screenshot_url : Option String
  is_live : Bool
  error_message : Option String
deriving DecidableEq

/-- State touched by `captureSubmission`: the referenced submission's
`status` column and the `submission_captures` rows inserted so far. -/
structure CaptureState where
  submissionStatus : String
  captures : List CaptureRow
deriving DecidableEq

/-- Catch block of `captureSubmission`: insert a `submission_captures` row
with `is_live: false` and the error message; if `capture_type === 'initial'`
update the submission to `monitoring`; finally `throw err` (the returned
`some msg`). -/
def captureFail (p : CapturePayload) (msg : String) (st : CaptureState) :
    CaptureState × Option String :=
  let st2 := { st with captures := st.captures ++
    [{ submission_id := p.submission_id, capture_type := p.capture_type,
       screenshot_url := none, is_live := false, error_message := some msg }] }
  let st3 := if p.capture_type == "initial"
    then { st2 with submissionStatus := "monitoring" } else st2
  (st3, some msg)

/-- `captureSubmission`: set the submission to `capturing`, then try
screenshot (`shot`, `Except` of the thrown message) and storage upload
(`uploadErr`, `some e` when the upload returns an error).  On success insert
a capture row with `is_live: true` and the public URL and set the submission
to `monitoring`; on any failure run the catch block.  The second component
is the error the call re-raises, `none` on success. -/
def captureSubmission (p : CapturePayload) (shot : Except String Nat)
    (uploadErr : Option String) (publicUrl : String) (st : CaptureState) :
    CaptureState × Option String :=
  let st1 := { st with submissionStatus := "capturing" }
  match shot with
  | .error msg => captureFail p msg st1
  | .ok _bytes =>
    match uploadErr with
    | some e => captureFail p ("Upload failed: " ++ e) st1
    | none =>
      ({ submissionStatus := "monitoring",
         captures := st1.captures ++
           [{ submission_id := p.submission_id, capture_type := p.capture_type,
              screenshot_url := some publicUrl, is_live := true,
              error_message := none }] }, none)

/-- Job types with a `case` arm in `executeJob`'s `switch`. -/
def handlerTypes : List String :=
  ["capture_submission", "monitor_submission", "send_email", "send_push",
   "process_payment"]

/-- `executeJob`: dispatch on `job_type`.  Capture/monitor jobs run
`captureSubmission`; `send_email`, `send_push` and `process_payment` only
log; the `default` arm only logs, so an unknown type returns normally with
no state change and no error. -/
def executeJob (j : Job) (shot : Except String Nat) (uploadErr : Option String)
    (publicUrl : String) (st : CaptureState) : CaptureState × Option String :=
  if j.job_type == "capture_submission" || j.job_type == "monitor_submission" then
    captureSubmission j.payload shot uploadErr publicUrl st
  else if j.job_type == "send_email" then (st, none)
  else if j.job_type == "send_push" then (st, none)
  else if j.job_type == "process_payment" then (st, none)
  else (st, none)

/-- JavaScript `x || d` on a nullable number column: `null`/`undefined` and
`0` are falsy and give `d`. -/
def jsOrInt (x : Option Int) (d : Int) : Int :=
  match x with
  | none => d
  | some v => if v == 0 then d else v

/-- One row of the `submissions` table (columns the scheduler reads). -/
structure Submission where
  id : String
  url : String
  platform : String
  status : String
deriving DecidableEq

/-- One row of the `monitoring_schedule` table. -/
structure Schedule where
  id : Nat
  submission_id : String
  is_active : Bool
  next_check_at : Time
  check_interval_hours : Option Int
  checks_remaining : Int
  total_checks : Option Int
  last_checked_at : Option Time
deriving DecidableEq

/-- A row inserted into `job_queue` by the monitoring scheduler. -/
structure InsertedJob where
  job_type : String
  payload : CapturePayload
  priority : Int
deriving DecidableEq

/-- Terminal submission statuses checked by `processMonitoringSchedule`. -/
def terminalSubmission (s : String) : Bool :=
  s == "rejected" || s == "approved" || s == "completed"

/-- Milliseconds in an hour, for `nextCheck.setHours(getHours + interval)`. -/
def msPerHour : Int := 3600000

/-- Predicate of the due-schedules query:
`is_active=eq.true&checks_remaining=gt.0&next_check_at=lte.now`. -/
def dueSchedule (now : Time) (s : Schedule) : Bool :=
  s.is_active && decide (0 < s.checks_remaining) && decide (s.next_check_at ≤ now)

/-- The due-schedules query of `processMonitoringSchedule` (`limit=20`). -/
def selectDueSchedules (now : Time) (tbl : List Schedule) : List Schedule :=
  (tbl.filter (dueSchedule now)).take 20

/-- Loop body of `processMonitoringSchedule` for one schedule: fetch the
referenced submission (`submissions[0]` of the `id=eq` query); if missing or
terminal set `is_active: false` and enqueue nothing; otherwise insert one
`monitor_submission` job with `capture_type: 'scheduled'` and `priority: 5`
and update the schedule (`next_check_at` advanced by
`check_interval_hours || 24` hours, `checks_remaining - 1`,
`last_checked_at`, `(total_checks || 0) + 1`).  Returns the schedule row as
updated and the list of inserted jobs. -/
def processOneSchedule (now : Time) (sch : Schedule) (subs : List Submission) :
    Schedule × List InsertedJob :=
  match (subs.filter fun s => s.id == sch.submission_id).head? with
  | none => ({ sch with is_active := false }, [])
  | some sub =>
    if terminalSubmission sub.status then
      ({ sch with is_active := false }, [])
    else
      ({ sch with
          next_check_at := now + jsOrInt sch.check_interval_hours 24 * msPerHour,
          checks_remaining := sch.checks_remaining - 1,
          last_checked_at := some now,
          total_checks := some (jsOrInt sch.total_checks 0 + 1) },
       [{ job_type := "monitor_submission",
          payload := { submission_id := sch.submission_id, url := sub.url,
                       platform := sub.platform, capture_type := "scheduled" },
          priority := 5 }])

/-- Options of `enqueueJob` (`settings.ts`): `{priority?, scheduledFor?}`. -/
structure EnqueueOptions where
  priority : Option Int
  scheduledFor : Option Time
deriving DecidableEq

/-- The record `enqueueJob` inserts into `job_queue` (payload left generic). -/
structure NewJobRow (α : Type) where
  job_type : String
  payload : α
  priority : Int
  scheduled_for : Time
deriving DecidableEq

/-- The insert record built by `enqueueJob`:
`priority: options?.priority || 0` and
`scheduled_for: options?.scheduledFor?.toISOString() || new Date().toISOString()`
(a present `Date` always yields a truthy string). -/
def enqueueRecord {α : Type} (ty : String) (payload : α)
    (options : Option EnqueueOptions) (now : Time) : NewJobRow α :=
  { job_type := ty, payload := payload,
    priority := jsOrInt (options.bind (·.priority)) 0,
    scheduled_for :=
      match options.bind (·.scheduledFor) with
      | some d => d
      | none => now }

/-- `enqueueJob` (`settings.ts`): insert the record; on insert error log and
return `null`, otherwise return the new row's `id`.  `db` is the database's
response to the insert. -/
def enqueueJob {α : Type} (ty : String) (payload : α)
    (options : Option EnqueueOptions) (now : Time)
    (db : NewJobRow α → Except String Nat) : Option Nat :=
  match db (enqueueRecord ty payload options now) with
  | .error _ => none
  | .ok jid => some jid

/-! ## Helper lemmas -/

/-- Every job returned by the selection query satisfies the selection
predicate. -/
theorem eligible_of_mem_selectEligible {now : Time} {tbl : List Job} {j : Job}
    (h : j ∈ selectEligible now tbl) : eligible now j = true := by
  unfold selectEligible at h
  have h1 := List.mem_of_mem_take h
  have h2 := List.mem_mergeSort.mp h1
  exact (List.mem_filter.mp h2).2

/-- The selection order is total. -/
theorem jobOrder_total (a b : Job) : (jobOrder a b || jobOrder b a) = true := by
  simp only [jobOrder, Bool.or_eq_true, Bool.and_eq_true, decide_eq_true_eq,
    beq_iff_eq]
  rcases lt_trichotomy a.priority b.priority with h | h | h
  · exact Or.inr (Or.inl h)
  · rcases le_total a.scheduled_for b.scheduled_for with hs | hs
    · exact Or.inl (Or.inr ⟨h, hs⟩)
    · exact Or.inr (Or.inr ⟨h.symm, hs⟩)
  · exact Or.inl (Or.inl h)

/-- The selection order is transitive. -/
theorem jobOrder_trans (a b c : Job) (hab : jobOrder a b = true)
    (hbc : jobOrder b c = true) : jobOrder a c = true := by
  simp only [jobOrder, Bool.or_eq_true, Bool.and_eq_true, decide_eq_true_eq,
    beq_iff_eq] at hab hbc ⊢
  rcases hab with h1 | ⟨h1, h1s⟩ <;> rcases hbc with h2 | ⟨h2, h2s⟩
  · exact Or.inl (h2.trans h1)
  · exact Or.inl (h2 ▸ h1)
  · exact Or.inl (h1 ▸ h2)
  · exact Or.inr ⟨h1.trans h2, h1s.trans h2s⟩

/-- A row of `updateEq tbl jid f` carrying the id `jid` is the image under
`f` of a matching row of `tbl`. -/
theorem updateEq_mem_id {tbl : List Job} {jid : Nat} {f : Job → Job}
    {r : Job} (hr : r ∈ updateEq tbl jid f)
    (hid : r.id = jid) : ∃ o ∈ tbl, o.id = jid ∧ r = f o := by
  obtain ⟨o, ho, heq⟩ := List.mem_map.mp hr
  by_cases hb : (o.id == jid) = true
  · refine ⟨o, ho, beq_iff_eq.mp hb, ?_⟩
    rw [← heq, if_pos hb]
  · rw [if_neg hb] at heq
    exfalso
    apply hb
    rw [beq_iff_eq, heq]
    exact hid

/-- A job whose status is `failed` never satisfies the selection query. -/
theorem failed_notMem_selectEligible {j : Job} (h : j.status = "failed")
    (now : Time) (tbl : List Job) : j ∉ selectEligible now tbl := by
  intro hmem
  have he := eligible_of_mem_selectEligible hmem
  rw [eligible, h] at he
  simp at he

/-- A schedule with no checks remaining never satisfies the due-schedules
query. -/
theorem spent_notMem_selectDueSchedules {s : Schedule}
    (h : s.checks_remaining ≤ 0) (now : Time) (tbl : List Schedule) :
    s ∉ selectDueSchedules now tbl := by
  intro hmem
  unfold selectDueSchedules at hmem
  have h1 := List.mem_of_mem_take hmem
  have h2 := (List.mem_filter.mp h1).2
  rw [dueSchedule] at h2
  simp only [Bool.and_eq_true, decide_eq_true_eq] at h2
  omega

/-! ## Claim theorems -/

/-- Concrete payload for the C1 scenario. -/
def payC1 : CapturePayload :=
  { submission_id := "s1", url := "https://e.example/p", platform := "tiktok",
    capture_type := "initial" }

/-- A pending, unlocked, due job. -/
def jobPendingC1 : Job :=
  { id := 1, job_type := "capture_submission", payload := payC1,
    status := "pending", priority := 0, scheduled_for := 0, attempts := 0,
    max_attempts := 3, locked_by := none, locked_at := none,
    error_message := none, created_at := 0, completed_at := none }

/-- C1: the claim's conditional-claim protocol is absent from the code.  The
lock update of `processJobQueue` is filtered only by `id=eq.job.id`, with no
`status = pending` / `locked_by IS NULL` condition, so a second worker's
claim on a job already claimed by the first still matches the row (one row
affected, not zero), reports no error, and overwrites the first worker's
lock — both claim attempts on the same pending job succeed and both workers
run the handler. -/
theorem lockJob_not_conditional :
    eligible 0 jobPendingC1 = true ∧
    matchedCount [jobPendingC1] jobPendingC1.id = 1 ∧
    (∀ r ∈ lockJob "wa" 10 jobPendingC1 [jobPendingC1],
      r.status = "processing" ∧ r.locked_by = some "wa") ∧
    matchedCount (lockJob "wa" 10 jobPendingC1 [jobPendingC1])
      jobPendingC1.id = 1 ∧
    (∀ r ∈ lockJob "wb" 20 jobPendingC1
        (lockJob "wa" 10 jobPendingC1 [jobPendingC1]),
      r.status = "processing" ∧ r.locked_by = some "wb" ∧ r.attempts = 1) := by
  decide

/-- A pending job created eight days before the sweep. -/
def oldPendingJob : Job :=
  { id := 11, job_type := "send_email", payload := payC1, status := "pending",
    priority := 0, scheduled_for := 0, attempts := 0, max_attempts := 3,
    locked_by := none, locked_at := none, error_message := none,
    created_at := -(8 * msPerDay), completed_at := none }

/-- A completed job created eight days before the sweep. -/
def oldCompletedJob : Job :=
  { oldPendingJob with
    id := 12,
    status := "completed",
    completed_at := some (-(8 * msPerDay)) }

/-- A completed job created six days before the sweep. -/
def recentCompletedJob : Job :=
  { oldPendingJob with
    id := 13,
    status := "completed",
    created_at := -(6 * msPerDay),
    completed_at := some (-(6 * msPerDay)) }

/-- C3: `worker-v2.ts`'s retention sweep deletes every row older than seven
days regardless of `status` — an eight-day-old `pending` job is deleted,
against the claim (and against the sweep's own comment), while the
`src/index.ts` variant's sweep, whose `delete().lt` adds
`status=in.(completed,failed)`, retains it and behaves as claimed. -/
theorem cleanupOldJobs_deletes_old_pending :
    cleanupOldJobsV2 0 [oldPendingJob, oldCompletedJob, recentCompletedJob] =
      [recentCompletedJob] ∧
    cleanupOldJobsW 0 [oldPendingJob, oldCompletedJob, recentCompletedJob] =
      [oldPendingJob, recentCompletedJob] := by
  decide

/-- C4: the eligible-job selection returns only `pending`, due, unlocked
jobs, in `priority DESC, scheduled_for ASC` order, and at most ten of them. -/
theorem selectEligible_spec (now : Time) (tbl : List Job) :
    (∀ j ∈ selectEligible now tbl,
      j.status = "pending" ∧ j.scheduled_for ≤ now ∧ j.locked_by = none) ∧
    List.Pairwise (fun a b => jobOrder a b = true) (selectEligible now tbl) ∧
    (selectEligible now tbl).length ≤ 10 := by
  refine ⟨?_, ?_, ?_⟩
  · intro j hj
    have he := eligible_of_mem_selectEligible hj
    rw [eligible] at he
    simp only [Bool.and_eq_true, beq_iff_eq, decide_eq_true_eq] at he
    exact ⟨he.1.1, he.1.2, he.2⟩
  · have hs := List.sorted_mergeSort jobOrder_trans
      jobOrder_total (tbl.filter (eligible now))
    exact List.Pairwise.sublist (List.take_sublist _ _) hs
  · unfold selectEligible processBatchLimit
    rw [List.length_take]
    exact min_le_left _ _

/-- An eligible job for the C4 witness. -/
def jobEligibleC4 : Job :=
  { id := 4, job_type := "monitor_submission", payload := payC1,
    status := "pending", priority := 5, scheduled_for := 40, attempts := 0,
    max_attempts := 3, locked_by := none, locked_at := none,
    error_message := none, created_at := 0, completed_at := none }

/-- Witness for C4 at a concrete one-job table. -/
theorem selectEligible_spec_witness :
    jobEligibleC4.status = "pending" ∧ jobEligibleC4.scheduled_for ≤ 50 ∧
      jobEligibleC4.locked_by = none :=
  (selectEligible_spec 50 [jobEligibleC4]).1 jobEligibleC4 (by
    have h : selectEligible 50 [jobEligibleC4] = [jobEligibleC4] := by
      unfold selectEligible
      rw [show List.filter (eligible 50) [jobEligibleC4] = [jobEligibleC4]
            from by rw [List.filter_cons,
              show eligible 50 jobEligibleC4 = true from rfl]; rfl,
        List.mergeSort_singleton]
      rfl
    rw [h]
    exact List.mem_singleton.mpr rfl)

/-- C5: both observed backoffs have the form `2 ^ attempts * base` for a
fixed positive base (five minutes in `worker-v2.ts`, one minute in
`src/index.ts`) and are strictly increasing in the attempt count. -/
theorem backoff_exponential_monotone :
    (∀ n : Nat, backoffMs n = 2 ^ n * 300000) ∧
    (∀ n : Nat, backoffMsW n = 2 ^ n * 60000) ∧
    (∀ n : Nat, backoffMs n < backoffMs (n + 1)) ∧
    (∀ n : Nat, backoffMsW n < backoffMsW (n + 1)) := by
  refine ⟨fun n => by unfold backoffMs; ring, fun n => rfl, fun n => ?_,
    fun n => ?_⟩
  · have h : (0:Int) < 2 ^ n := by positivity
    simp only [backoffMs, pow_succ]
    nlinarith
  · have h : (0:Int) < 2 ^ n := by positivity
    simp only [backoffMsW, pow_succ]
    nlinarith

/-- C2: after a handler failure, the failure update stores the error and
clears the lock; at the attempt limit the job becomes `failed` and can never
again be returned by the eligible-job selection, otherwise it returns to
`pending` with `scheduled_for = now + backoff(attempts)`, strictly after the
failure time. -/
theorem failJob_spec (snap : Job) (errMsg : String) (now : Time)
    (tbl : List Job) :
    ∀ r ∈ failJob snap errMsg now tbl, r.id = snap.id →
      r.error_message = some errMsg ∧ r.locked_by = none ∧
      (if snap.attempts + 1 ≥ snap.max_attempts then
        r.status = "failed" ∧
          ∀ (later : Time) (tbl2 : List Job), r ∉ selectEligible later tbl2
      else
        r.status = "pending" ∧
          r.scheduled_for = now + backoffMs snap.attempts ∧
          now < r.scheduled_for) := by
  intro r hr hid
  have hpos : (0:Int) < backoffMs snap.attempts := by
    unfold backoffMs; positivity
  by_cases hmax : snap.attempts + 1 ≥ snap.max_attempts
  · rw [failJob, if_pos hmax] at hr
    obtain ⟨o, _, _, rfl⟩ := updateEq_mem_id hr hid
    rw [if_pos hmax]
    exact ⟨rfl, rfl, rfl, fun later tbl2 => failed_notMem_selectEligible rfl later tbl2⟩
  · rw [failJob, if_neg hmax] at hr
    obtain ⟨o, _, _, rfl⟩ := updateEq_mem_id hr hid
    rw [if_neg hmax]
    exact ⟨rfl, rfl, rfl, rfl,
      show now < now + backoffMs snap.attempts by linarith⟩

/-- The snapshot of the C2 witness job as read by the selection query. -/
def jobSnapC2 : Job :=
  { id := 7, job_type := "send_email", payload := payC1, status := "pending",
    priority := 0, scheduled_for := 0, attempts := 2, max_attempts := 3,
    locked_by := none, locked_at := none, error_message := none,
    created_at := 0, completed_at := none }

/-- The same row as it stands in the table when the handler fails. -/
def jobRowC2 : Job :=
  { jobSnapC2 with
    status := "processing",
    attempts := 3,
    locked_by := some "wa",
    locked_at := some 5 }

/-- The row after the failure update. -/
def jobFailedC2 : Job :=
  { jobRowC2 with
    status := "failed",
    error_message := some "boom",
    locked_by := none }

/-- Witness for C2: a job on its final attempt is marked `failed` and is
never selected again. -/
theorem failJob_spec_witness :
    jobFailedC2.error_message = some "boom" ∧ jobFailedC2.locked_by = none ∧
    (if jobSnapC2.attempts + 1 ≥ jobSnapC2.max_attempts then
      jobFailedC2.status = "failed" ∧
        ∀ (later : Time) (tbl2 : List Job),
          jobFailedC2 ∉ selectEligible later tbl2
    else
      jobFailedC2.status = "pending" ∧
        jobFailedC2.scheduled_for = 100 + backoffMs jobSnapC2.attempts ∧
        (100:Time) < jobFailedC2.scheduled_for) :=
  failJob_spec jobSnapC2 "boom" 100 [jobRowC2] jobFailedC2 (by decide) rfl

/-- C9: a leased job whose `job_type` matches no `case` arm of
`executeJob`'s `switch` causes no state change and raises no error, and the
subsequent success update marks the row `completed` with `completed_at`
stamped and the lock cleared. -/
theorem unknownJobType_spec (j : Job) (shot : Except String Nat)
    (uploadErr : Option String) (publicUrl : String) (st : CaptureState)
    (now : Time) (tbl : List Job)
    (h : j.job_type ∉ handlerTypes) :
    executeJob j shot uploadErr publicUrl st = (st, none) ∧
    ∀ r ∈ completeJob j.id now tbl, r.id = j.id →
      r.status = "completed" ∧ r.completed_at = some now ∧
        r.locked_by = none := by
  constructor
  · rw [handlerTypes] at h
    simp only [List.mem_cons, List.not_mem_nil, or_false, not_or] at h
    obtain ⟨h1, h2, h3, h4, h5⟩ := h
    rw [executeJob, beq_eq_false_iff_ne.mpr h1, beq_eq_false_iff_ne.mpr h2,
      beq_eq_false_iff_ne.mpr h3, beq_eq_false_iff_ne.mpr h4,
      beq_eq_false_iff_ne.mpr h5]
    rfl
  · intro r hr hid
    rw [completeJob] at hr
    obtain ⟨o, _, _, rfl⟩ := updateEq_mem_id hr hid
    exact ⟨rfl, rfl, rfl⟩

/-- A job with an unregistered type, already leased. -/
def jobUnknownC9 : Job :=
  { id := 9, job_type := "resize_image", payload := payC1,
    status := "processing", priority := 0, scheduled_for := 0, attempts := 1,
    max_attempts := 3, locked_by := some "wa", locked_at := some 5,
    error_message := none, created_at := 0, completed_at := none }

/-- State of the C9 witness before the job runs. -/
def stC9 : CaptureState := { submissionStatus := "monitoring", captures := [] }

/-- The C9 witness row after the success update. -/
def jobDoneC9 : Job :=
  { jobUnknownC9 with
    status := "completed",
    completed_at := some 100,
    locked_by := none }

/-- Witness for C9: the unregistered type `resize_image` is a no-op treated
as success. -/
theorem unknownJobType_spec_witness :
    executeJob jobUnknownC9 (Except.ok 1) none "purl" stC9 = (stC9, none) ∧
    (jobDoneC9.status = "completed" ∧ jobDoneC9.completed_at = some 100 ∧
      jobDoneC9.locked_by = none) :=
  ⟨(unknownJobType_spec jobUnknownC9 (Except.ok 1) none "purl" stC9 100
      [jobUnknownC9] (by decide)).1,
    (unknownJobType_spec jobUnknownC9 (Except.ok 1) none "purl" stC9 100
      [jobUnknownC9] (by decide)).2 jobDoneC9 (by decide) rfl⟩

/-- C10: with no options the enqueue interface inserts `priority` 0 and
`scheduled_for` equal to the current time; given options override both; a
successful insert returns the new id, and an insert error returns `null`
rather than raising. -/
theorem enqueueJob_spec {α : Type} (ty : String) (payload : α) (now : Time)
    (db : NewJobRow α → Except String Nat) :
    (enqueueRecord ty payload none now =
      { job_type := ty, payload := payload, priority := 0,
        scheduled_for := now }) ∧
    (∀ (p : Int) (d : Time),
      enqueueRecord ty payload
          (some { priority := some p, scheduledFor := some d }) now =
        { job_type := ty, payload := payload, priority := p,
          scheduled_for := d }) ∧
    (∀ (options : Option EnqueueOptions) (jid : Nat),
      db (enqueueRecord ty payload options now) = .ok jid →
        enqueueJob ty payload options now db = some jid) ∧
    (∀ (options : Option EnqueueOptions) (e : String),
      db (enqueueRecord ty payload options now) = .error e →
        enqueueJob ty payload options now db = none) := by
  refine ⟨rfl, fun p d => ?_, fun options jid h => ?_, fun options e h => ?_⟩
  · have hp : jsOrInt (some p) 0 = p := by
      by_cases h0 : p = 0
      · rw [jsOrInt, h0]; rfl
      · rw [jsOrInt, if_neg (by simpa using h0)]
    simp only [enqueueRecord, Option.bind, hp]
  · rw [enqueueJob, h]
  · rw [enqueueJob, h]

/-- Witness for C10: a concrete enqueue against a database that accepts the
insert with id 42, and one against a database that rejects it. -/
theorem enqueueJob_spec_witness :
    enqueueJob "send_email" (0:Nat) none 0 (fun _ => Except.ok 42) =
      some 42 ∧
    enqueueJob "send_email" (0:Nat) none 0
      (fun _ => Except.error "duplicate") = none :=
  ⟨(enqueueJob_spec "send_email" 0 0 (fun _ => Except.ok 42)).2.2.1 none 42
      rfl,
    (enqueueJob_spec "send_email" 0 0
      (fun _ => Except.error "duplicate")).2.2.2 none "duplicate" rfl⟩

/-- Payload of a scheduled re-capture. -/
def payScheduledC6 : CapturePayload :=
  { submission_id := "s6", url := "https://e.example/v", platform := "tiktok",
    capture_type := "scheduled" }

/-- C6 counterexample: a failing scheduled capture of a submission that was
in `monitoring` does change the submission's status — `captureSubmission`
sets it to `capturing` at entry before the try block, and the catch block
leaves it there for `scheduled` captures. -/
theorem captureSubmission_scheduled_changes_status :
    (captureSubmission payScheduledC6 (Except.error "boom") none "purl"
        { submissionStatus := "monitoring", captures := [] }).1.submissionStatus =
      "capturing" ∧
    (captureSubmission payScheduledC6 (Except.error "boom") none "purl"
        { submissionStatus := "monitoring", captures := [] }).1.submissionStatus ≠
      "monitoring" := by
  decide

/-- C6 (amended): every failing capture invocation appends exactly one
`submission_captures` row with `is_live = false` and the raised message as
`error_message`, re-raises the error, and sets an `initial` capture's
submission to `monitoring`, while for a `scheduled` capture the catch block
performs no status update, leaving the status at the `capturing` value set
when the task began. -/
theorem captureSubmission_failure_spec (p : CapturePayload)
    (shot : Except String Nat) (uploadErr : Option String)
    (publicUrl : String) (st : CaptureState)
    (hfail : match shot with
      | .error _ => True
      | .ok _ => uploadErr ≠ none) :
    ((captureSubmission p shot uploadErr publicUrl st).2).isSome = true ∧
    (captureSubmission p shot uploadErr publicUrl st).1.captures =
      st.captures ++
        [{ submission_id := p.submission_id, capture_type := p.capture_type,
           screenshot_url := none, is_live := false,
           error_message := (captureSubmission p shot uploadErr publicUrl st).2 }] ∧
    (if p.capture_type == "initial" then
      (captureSubmission p shot uploadErr publicUrl st).1.submissionStatus =
        "monitoring"
    else
      (captureSubmission p shot uploadErr publicUrl st).1.submissionStatus =
        "capturing") := by
  cases shot with
  | error msg =>
    by_cases hc : (p.capture_type == "initial") = true
    · simp [captureSubmission, captureFail, hc]
    · simp [captureSubmission, captureFail, hc]
  | ok b =>
    cases uploadErr with
    | none => exact absurd rfl hfail
    | some e =>
      by_cases hc : (p.capture_type == "initial") = true
      · simp [captureSubmission, captureFail, hc]
      · simp [captureSubmission, captureFail, hc]

/-- Payload of an initial capture, for the C6 witness. -/
def payInitialC6 : CapturePayload :=
  { payScheduledC6 with capture_type := "initial" }

/-- State of the C6 witness submission before the capture. -/
def stC6 : CaptureState := { submissionStatus := "pending", captures := [] }

/-- Witness for C6 (amended): a failing initial capture at a concrete
submission. -/
theorem captureSubmission_failure_spec_witness :
    ((captureSubmission payInitialC6 (Except.error "boom") none "purl"
        stC6).2).isSome = true ∧
    (captureSubmission payInitialC6 (Except.error "boom") none "purl"
        stC6).1.captures =
      stC6.captures ++
        [{ submission_id := payInitialC6.submission_id,
           capture_type := payInitialC6.capture_type,
           screenshot_url := none, is_live := false,
           error_message := (captureSubmission payInitialC6
             (Except.error "boom") none "purl" stC6).2 }] ∧
    (if payInitialC6.capture_type == "initial" then
      (captureSubmission payInitialC6 (Except.error "boom") none "purl"
          stC6).1.submissionStatus = "monitoring"
    else
      (captureSubmission payInitialC6 (Except.error "boom") none "purl"
          stC6).1.submissionStatus = "capturing") :=
  captureSubmission_failure_spec payInitialC6 (Except.error "boom") none
    "purl" stC6 trivial

/-- A due, active schedule whose interval column holds 0. -/
def schZeroIntervalC7 : Schedule :=
  { id := 1, submission_id := "s7", is_active := true, next_check_at := 0,
    check_interval_hours := some 0, checks_remaining := 3,
    total_checks := some 2, last_checked_at := none }

/-- The monitored submission of the C7 counterexample, not terminal. -/
def subActiveC7 : Submission :=
  { id := "s7", url := "https://e.example/v", platform := "tiktok",
    status := "monitoring" }

/-- C7 counterexample: a schedule whose `check_interval_hours` is set to 0
is advanced by 24 hours, not by its `check_interval_hours`, because
`schedule.check_interval_hours || 24` treats 0 as falsy. -/
theorem processOneSchedule_zero_interval :
    dueSchedule 100 schZeroIntervalC7 = true ∧
    schZeroIntervalC7.check_interval_hours = some 0 ∧
    terminalSubmission subActiveC7.status = false ∧
    (processOneSchedule 100 schZeroIntervalC7 [subActiveC7]).1.next_check_at =
      100 + 24 * msPerHour ∧
    (processOneSchedule 100 schZeroIntervalC7 [subActiveC7]).1.next_check_at ≠
      100 + 0 * msPerHour := by
  decide

/-- C7 (amended): an active, due schedule with checks remaining whose
submission exists and is not terminal yields exactly one enqueued
`monitor_submission` job with `capture_type = scheduled` and `priority = 5`,
advances `next_check_at` by `check_interval_hours` hours — 24 when the
column is unset or 0 — decrements `checks_remaining` by one, stamps
`last_checked_at`, and increments `total_checks` by one. -/
theorem processOneSchedule_eligible_spec (now : Time) (sch : Schedule)
    (subs : List Submission) (sub : Submission)
    (hact : sch.is_active = true) (hrem : 0 < sch.checks_remaining)
    (hdue : sch.next_check_at ≤ now)
    (hsub : (subs.filter fun s => s.id == sch.submission_id).head? = some sub)
    (hterm : terminalSubmission sub.status = false) :
    (processOneSchedule now sch subs).2 =
      [{ job_type := "monitor_submission",
         payload := { submission_id := sch.submission_id, url := sub.url,
                      platform := sub.platform,
                      capture_type := "scheduled" },
         priority := 5 }] ∧
    (processOneSchedule now sch subs).1.next_check_at =
      now + jsOrInt sch.check_interval_hours 24 * msPerHour ∧
    (processOneSchedule now sch subs).1.checks_remaining =
      sch.checks_remaining - 1 ∧
    (processOneSchedule now sch subs).1.last_checked_at = some now ∧
    (processOneSchedule now sch subs).1.total_checks =
      some (jsOrInt sch.total_checks 0 + 1) := by
  rw [processOneSchedule, hsub]
  simp [hterm]

/-- A due, active schedule with a six-hour interval, for the C7 witness. -/
def schEligibleC7 : Schedule :=
  { id := 2, submission_id := "s7", is_active := true, next_check_at := 90,
    check_interval_hours := some 6, checks_remaining := 5,
    total_checks := none, last_checked_at := none }

/-- Witness for C7 (amended) at a concrete schedule and submission. -/
theorem processOneSchedule_eligible_spec_witness :
    (processOneSchedule 100 schEligibleC7 [subActiveC7]).2 =
      [{ job_type := "monitor_submission",
         payload := { submission_id := schEligibleC7.submission_id,
                      url := subActiveC7.url,
                      platform := subActiveC7.platform,
                      capture_type := "scheduled" },
         priority := 5 }] ∧
    (processOneSchedule 100 schEligibleC7 [subActiveC7]).1.next_check_at =
      100 + jsOrInt schEligibleC7.check_interval_hours 24 * msPerHour ∧
    (processOneSchedule 100 schEligibleC7 [subActiveC7]).1.checks_remaining =
      schEligibleC7.checks_remaining - 1 ∧
    (processOneSchedule 100 schEligibleC7 [subActiveC7]).1.last_checked_at =
      some 100 ∧
    (processOneSchedule 100 schEligibleC7 [subActiveC7]).1.total_checks =
      some (jsOrInt schEligibleC7.total_checks 0 + 1) :=
  processOneSchedule_eligible_spec 100 schEligibleC7 [subActiveC7]
    subActiveC7 rfl (by decide) (by decide) (by decide) rfl

/-- A due, active schedule on its last remaining check. -/
def schLastCheckC8 : Schedule :=
  { id := 3, submission_id := "s8", is_active := true, next_check_at := 0,
    check_interval_hours := some 24, checks_remaining := 1,
    total_checks := none, last_checked_at := none }

/-- The monitored submission of the C8 counterexample, not terminal. -/
def subActiveC8 : Submission :=
  { id := "s8", url := "https://e.example/w", platform := "tiktok",
    status := "monitoring" }

/-- C8 counterexample: when `checks_remaining` hits 0 the scan does not set
`is_active` to false — the schedule stays active and merely stops matching
the due-schedules query. -/
theorem schedule_spent_stays_active :
    (processOneSchedule 100 schLastCheckC8 [subActiveC8]).1.checks_remaining =
      0 ∧
    (processOneSchedule 100 schLastCheckC8 [subActiveC8]).1.is_active =
      true ∧
    dueSchedule 999999999
      (processOneSchedule 100 schLastCheckC8 [subActiveC8]).1 = false := by
  decide

/-- C8 (amended): a processed schedule whose submission is missing or
terminal is deactivated with no job enqueued; `checks_remaining` never
increases; and a schedule whose `checks_remaining` has reached 0 keeps
`is_active` as it is but is never again returned by the due-schedules
query. -/
theorem processOneSchedule_invariants (now : Time) (sch : Schedule)
    (subs : List Submission) :
    (((subs.filter fun s => s.id == sch.submission_id).head? = none ∨
      (∃ sub, (subs.filter fun s => s.id == sch.submission_id).head? =
          some sub ∧ terminalSubmission sub.status = true)) →
      (processOneSchedule now sch subs).1.is_active = false ∧
      (processOneSchedule now sch subs).2 = []) ∧
    (processOneSchedule now sch subs).1.checks_remaining ≤
      sch.checks_remaining ∧
    (∀ (later : Time) (tbl : List Schedule) (s : Schedule),
      s.checks_remaining ≤ 0 → s ∉ selectDueSchedules later tbl) := by
  refine ⟨?_, ?_, fun later tbl s h => spent_notMem_selectDueSchedules h later tbl⟩
  · rintro (hnone | ⟨sub, hsub, hterm⟩)
    · rw [processOneSchedule, hnone]
      exact ⟨rfl, rfl⟩
    · rw [processOneSchedule, hsub]
      simp [hterm]
  · unfold processOneSchedule
    split
    · exact le_refl _
    · split
      · exact le_refl _
      · dsimp only
        omega

/-- A schedule referencing a submission that no longer exists. -/
def schOrphanC8 : Schedule :=
  { id := 4, submission_id := "gone", is_active := true, next_check_at := 0,
    check_interval_hours := none, checks_remaining := 4, total_checks := none,
    last_checked_at := none }

/-- A schedule whose checks are exhausted. -/
def schSpentC8 : Schedule :=
  { id := 5, submission_id := "s8", is_active := true, next_check_at := 0,
    check_interval_hours := some 24, checks_remaining := 0,
    total_checks := some 30, last_checked_at := some 50 }

/-- Witness for C8 (amended): a schedule with a missing submission is
deactivated without enqueueing, and an exhausted schedule is never
selected. -/
theorem processOneSchedule_invariants_witness :
    ((processOneSchedule 0 schOrphanC8 []).1.is_active = false ∧
      (processOneSchedule 0 schOrphanC8 []).2 = []) ∧
    schSpentC8 ∉ selectDueSchedules 500 [schSpentC8] :=
  ⟨(processOneSchedule_invariants 0 schOrphanC8 []).1 (Or.inl rfl),
    (processOneSchedule_invariants 0 schOrphanC8 []).2.2 500 [schSpentC8]
      schSpentC8 (by decide)⟩

end Banity
